import Mathlib

/-!
Shallow embedding of `src/device_memory.rs` from the voodoo repository:
the `DeviceMemory` shared-ownership wrapper over device-allocated memory
blocks, its builder, mapping views, and the Handle capability.

Machine integers (`u64`, `u32`, `usize`) are embedded as `Nat`; none of
the modelled operations perform wrapping arithmetic.  Raw host pointers
are embedded as `Nat` values.  Fallible operations return `Except`, and
a Rust panic (an `assert!` failure or a division by zero) is modelled as
a distinguished outcome rather than a value.
-/

namespace Voodoo

/-- Raw native handle type (`vks::VkDeviceMemory`), an opaque fixed-size
identifier embedded as `Nat`. -/
abbrev VkDeviceMemory := Nat

/-- Translation of `DeviceMemoryHandle(pub(crate) vks::VkDeviceMemory)`:
a newtype over the raw native handle, comparable for equality. -/
structure DeviceMemoryHandle where
  raw : VkDeviceMemory
deriving DecidableEq, Repr

/-- Translation of `DeviceMemoryHandle::to_raw`. -/
def DeviceMemoryHandle.to_raw (self : DeviceMemoryHandle) : VkDeviceMemory :=
  self.raw

/-- Error value carried by a failed native allocate call
(`AllocationError` in the spec); the code names the driver-reported
cause, embedded as an opaque numeric code. -/
structure AllocationError where
  code : Nat
deriving DecidableEq, Repr

/-- Error value carried by a failed native map call (`MapError` in the
spec), embedded as an opaque numeric code. -/
structure MapError where
  code : Nat
deriving DecidableEq, Repr

/-- Reserved `MemoryMapFlags` bitmask argument, embedded as `Nat`. -/
abbrev MemoryMapFlags := Nat

/-- One primitive operation invoked on the external Device; executions
record the list of such calls so that theorems can count invocations. -/
inductive DevCall where
  | allocate (size : Nat) (memory_type_index : Nat)
  | free (handle : DeviceMemoryHandle)
  | mapMem (handle : DeviceMemoryHandle) (offset : Nat) (size : Nat) (flags : MemoryMapFlags)
  | unmapMem (handle : DeviceMemoryHandle)
deriving DecidableEq, Repr

/-- Modelled from the spec: the external `Device` collaborator is not
part of the reviewed sources; per spec section 6 it exposes allocate,
free, map and unmap.  It is embedded as an oracle of response functions:
`allocResult` answers an allocate request with an opaque handle or an
`AllocationError`, and `mapResult` answers a map request with a host
pointer or a `MapError`.  Per the spec, the reserved `flags` parameter
is accepted but currently without defined effect, so `mapResult` does
not depend on it; free and unmap return nothing. -/
structure Device where
  allocResult : Nat → Nat → Except AllocationError VkDeviceMemory
  mapResult : DeviceMemoryHandle → Nat → Nat → Except MapError Nat

/-- Modelled from the spec: `Device::allocate_memory` invokes the native
allocate primitive once and surfaces its result. -/
def Device.allocate_memory (d : Device) (size : Nat) (memory_type_index : Nat) :
    Except AllocationError VkDeviceMemory × List DevCall :=
  (d.allocResult size memory_type_index, [DevCall.allocate size memory_type_index])

/-- Modelled from the spec: `Device::map_memory` invokes the native map
primitive once, passing the reserved flags through, and surfaces its
result (a host pointer or a `MapError`). -/
def Device.map_memory (d : Device) (handle : DeviceMemoryHandle)
    (offset_bytes : Nat) (size_bytes : Nat) (flags : MemoryMapFlags) :
    Except MapError Nat × List DevCall :=
  (d.mapResult handle offset_bytes size_bytes,
   [DevCall.mapMem handle offset_bytes size_bytes flags])

/-- Modelled from the spec: `Device::unmap_memory` invokes the native
unmap primitive once; it returns nothing. -/
def Device.unmap_memory (_d : Device) (handle : DeviceMemoryHandle) : List DevCall :=
  [DevCall.unmapMem handle]

/-- Modelled from the spec: `Device::free_memory` invokes the native
free primitive once; it is best-effort and failures are not surfaced. -/
def Device.free_memory (_d : Device) (handle : DeviceMemoryHandle) : List DevCall :=
  [DevCall.free handle]

/-- Translation of `MemoryMapping<'m, T>`: a slice of mapped memory,
holding a raw pointer, an element count, and a copy of the originating
block's handle.  The `PhantomData` lifetime marker has no runtime
content and is dropped; the element type parameter is represented at
use sites by the byte size of `T`. -/
structure MemoryMapping where
  ptr : Nat
  len : Nat
  mem_handle : DeviceMemoryHandle
deriving DecidableEq, Repr

/-- Translation of `MemoryMapping::new`. -/
def MemoryMapping.new (ptr : Nat) (len : Nat) (mem_handle : DeviceMemoryHandle) :
    MemoryMapping :=
  ⟨ptr, len, mem_handle⟩

/-- Translation of the private `Inner` struct: the shared state of one
memory block. -/
structure Inner where
  handle : DeviceMemoryHandle
  device : Device
  allocation_size : Nat
  memory_type_index : Nat

/-- Translation of `impl Drop for Inner`: dropping the shared state
calls `Device::free_memory` on the stored handle. -/
def Inner.dropCalls (self : Inner) : List DevCall :=
  self.device.free_memory self.handle

/-- Translation of `DeviceMemory`: a clonable wrapper holding shared
ownership of an `Inner`.  The `Arc` reference count is modelled
separately by `ArcInner` for the lifecycle theorems. -/
structure DeviceMemory where
  inner : Inner

/-- Rust integer division on `usize`: panics (here `none`) when the
divisor is zero, otherwise floor division. -/
def rustDiv (a : Nat) (b : Nat) : Option Nat :=
  if b = 0 then none else some (a / b)

/-- Translation of `DeviceMemory::map_to_ptr`: delegates directly to
`Device::map_memory` with the block's handle; the device's result is
returned unchanged, paired with the device-call trace. -/
def DeviceMemory.map_to_ptr (self : DeviceMemory) (offset_bytes : Nat)
    (size_bytes : Nat) (flags : MemoryMapFlags) :
    Except MapError Nat × List DevCall :=
  self.inner.device.map_memory self.inner.handle offset_bytes size_bytes flags

/-- Translation of `DeviceMemory::unmap_ptr`: calls
`Device::unmap_memory` on the block's handle. -/
def DeviceMemory.unmap_ptr (self : DeviceMemory) : List DevCall :=
  self.inner.device.unmap_memory self.inner.handle

/-- Outcome of `DeviceMemory::map`: a mapping view, a surfaced
`MapError`, or a Rust panic (division by zero on a zero-sized element
type). -/
inductive MapOutcome where
  | ok (m : MemoryMapping)
  | err (e : MapError)
  | panic
deriving DecidableEq, Repr

/-- Translation of `DeviceMemory::map`: first `map_to_ptr` (the `?`
operator propagates a device failure before the length is computed),
then `len = size_bytes / size_of T` by Rust integer division, then the
view is assembled from the pointer, the length and the block's handle.
`sizeofT` stands for `mem::size_of::<T>()`. -/
def DeviceMemory.map (self : DeviceMemory) (sizeofT : Nat) (offset_bytes : Nat)
    (size_bytes : Nat) (flags : MemoryMapFlags) :
    MapOutcome × List DevCall :=
  match self.map_to_ptr offset_bytes size_bytes flags with
  | (Except.error e, trace) => (MapOutcome.err e, trace)
  | (Except.ok ptr, trace) =>
    match rustDiv size_bytes sizeofT with
    | none => (MapOutcome.panic, trace)
    | some len => (MapOutcome.ok (MemoryMapping.new ptr len self.inner.handle), trace)

/-- Translation of `DeviceMemory::unmap`: `assert!` that the view's
stored handle equals the block's own handle — a failed assertion is a
Rust panic, modelled as `none`; on success `unmap_ptr` is invoked and
its device-call trace returned. -/
def DeviceMemory.unmap (self : DeviceMemory) (mapping : MemoryMapping) :
    Option (List DevCall) :=
  if mapping.mem_handle = self.inner.handle then
    some self.unmap_ptr
  else
    none

/-- Translation of the accessor `DeviceMemory::handle`. -/
def DeviceMemory.handle (self : DeviceMemory) : DeviceMemoryHandle :=
  self.inner.handle

/-- Translation of the accessor `DeviceMemory::device`. -/
def DeviceMemory.device (self : DeviceMemory) : Device :=
  self.inner.device

/-- Translation of `impl Handle for &DeviceMemory`: the borrowing
capability implementation reads `self.inner.handle` from a reference to
the block. -/
def handleOfRef (self : DeviceMemory) : DeviceMemoryHandle :=
  self.inner.handle

/-- Modelled from the spec: `MemoryAllocateInfo` is declared in the
reviewed sources only as a raw mirror struct without its accessors or
`Default` impl; per the spec the builder state is
`(allocation_size : u64, memory_type_index : u32)` defaulting to
zero/zero if never set. -/
structure MemoryAllocateInfo where
  allocation_size : Nat
  memory_type_index : Nat
deriving DecidableEq, Repr

/-- Modelled from the spec: `MemoryAllocateInfo::default` is the
zero/zero allocation request. -/
def MemoryAllocateInfo.default : MemoryAllocateInfo :=
  ⟨0, 0⟩

/-- Modelled from the spec: setter for the requested byte length. -/
def MemoryAllocateInfo.set_allocation_size (self : MemoryAllocateInfo)
    (allocation_size : Nat) : MemoryAllocateInfo :=
  ⟨allocation_size, self.memory_type_index⟩

/-- Modelled from the spec: setter for the memory type index. -/
def MemoryAllocateInfo.set_memory_type_index (self : MemoryAllocateInfo)
    (memory_type_index : Nat) : MemoryAllocateInfo :=
  ⟨self.allocation_size, memory_type_index⟩

/-- Translation of `DeviceMemoryBuilder`. -/
structure DeviceMemoryBuilder where
  allocate_info : MemoryAllocateInfo
deriving DecidableEq, Repr

/-- Translation of `DeviceMemoryBuilder::new`: a fresh builder holding
the default allocation request. -/
def DeviceMemoryBuilder.new : DeviceMemoryBuilder :=
  ⟨MemoryAllocateInfo.default⟩

/-- Translation of the setter `DeviceMemoryBuilder::allocation_size`
(in Rust it mutates through `&mut self` and returns `&mut self`;
embedded as returning the updated builder). -/
def DeviceMemoryBuilder.allocation_size (self : DeviceMemoryBuilder)
    (allocation_size : Nat) : DeviceMemoryBuilder :=
  ⟨self.allocate_info.set_allocation_size allocation_size⟩

/-- Translation of the setter `DeviceMemoryBuilder::memory_type_index`. -/
def DeviceMemoryBuilder.memory_type_index (self : DeviceMemoryBuilder)
    (memory_type_index : Nat) : DeviceMemoryBuilder :=
  ⟨self.allocate_info.set_memory_type_index memory_type_index⟩

/-- Translation of `DeviceMemoryBuilder::build`: one call to
`Device::allocate_memory` with the accumulated parameters; on success
the returned handle, the device, and the two parameters are wrapped in
a fresh shared block; an `AllocationError` propagates via `?`. -/
def DeviceMemoryBuilder.build (self : DeviceMemoryBuilder) (device : Device) :
    Except AllocationError DeviceMemory × List DevCall :=
  match device.allocate_memory self.allocate_info.allocation_size
      self.allocate_info.memory_type_index with
  | (Except.error e, trace) => (Except.error e, trace)
  | (Except.ok raw, trace) =>
    (Except.ok ⟨⟨⟨raw⟩, device, self.allocate_info.allocation_size,
        self.allocate_info.memory_type_index⟩⟩, trace)

/-- Translation of `DeviceMemory::builder`. -/
def DeviceMemory.builder : DeviceMemoryBuilder :=
  DeviceMemoryBuilder.new

/-- Translation of `DeviceMemory::new`: builder, both setters, build. -/
def DeviceMemory.new (device : Device) (allocation_size : Nat)
    (memory_type_index : Nat) : Except AllocationError DeviceMemory × List DevCall :=
  ((DeviceMemoryBuilder.new.allocation_size allocation_size).memory_type_index
      memory_type_index).build device

/-- Shared-ownership state of one block: the `Arc` strong count together
with the shared `Inner` value.  `strong = 0` is the freed terminal
state. -/
structure ArcInner where
  strong : Nat
  value : Inner

/-- Translation of `Arc::new`: a fresh shared allocation with one
owner. -/
def ArcInner.mk1 (value : Inner) : ArcInner :=
  ⟨1, value⟩

/-- Translation of cloning the `Arc` (the derived `Clone` on
`DeviceMemory`): increments the strong count; no device call. -/
def arcClone (s : ArcInner) : ArcInner :=
  ⟨s.strong + 1, s.value⟩

/-- Translation of dropping one owner of the `Arc`: decrements the
strong count; when the last owner is released, `Inner`'s `Drop` impl
runs and emits its device calls. -/
def arcRelease (s : ArcInner) : ArcInner × List DevCall :=
  if s.strong ≤ 1 then
    (⟨0, s.value⟩, s.value.dropCalls)
  else
    (⟨s.strong - 1, s.value⟩, [])

/-- Releases `k` owners in sequence, concatenating the device calls
emitted along the way. -/
def releaseMany : Nat → ArcInner → ArcInner × List DevCall
  | 0, s => (s, [])
  | k + 1, s =>
    match arcRelease s with
    | (s1, t1) =>
      match releaseMany k s1 with
      | (s2, t2) => (s2, t1 ++ t2)

/-- One public operation on a live block, for the field-immutability
invariant: the block's methods taking `&self`, plus ownership cloning. -/
inductive BlockOp where
  | mapToPtrOp (offset_bytes size_bytes flags : Nat)
  | mapOp (sizeofT offset_bytes size_bytes flags : Nat)
  | unmapOp (m : MemoryMapping)
  | unmapPtrOp
  | handleOp
  | deviceOp
  | cloneOp

/-- Executes one public operation against the shared state, returning
the state afterwards and the device calls made.  Methods on `&self`
read the shared `Inner` and cannot replace it; cloning increments the
strong count and shares the same `Inner`. -/
def step (s : ArcInner) : BlockOp → ArcInner × List DevCall
  | BlockOp.mapToPtrOp o n f => (s, (DeviceMemory.map_to_ptr ⟨s.value⟩ o n f).2)
  | BlockOp.mapOp z o n f => (s, (DeviceMemory.map ⟨s.value⟩ z o n f).2)
  | BlockOp.unmapOp m => (s, (DeviceMemory.unmap ⟨s.value⟩ m).getD [])
  | BlockOp.unmapPtrOp => (s, DeviceMemory.unmap_ptr ⟨s.value⟩)
  | BlockOp.handleOp => (s, [])
  | BlockOp.deviceOp => (s, [])
  | BlockOp.cloneOp => (arcClone s, [])

/-- Concrete device used to evaluate theorems on concrete inputs: every
allocate request succeeds with raw handle 100, every map request
succeeds with host pointer 1000. -/
def sampleDevice : Device :=
  ⟨fun _ _ => Except.ok 100, fun _ _ _ => Except.ok 1000⟩

/-- Concrete shared block state over `sampleDevice`. -/
def sampleInner : Inner :=
  ⟨⟨7⟩, sampleDevice, 64, 2⟩

/-- Concrete block over `sampleInner`. -/
def sampleMem : DeviceMemory :=
  ⟨sampleInner⟩

theorem releaseMany_succ_eq (k : Nat) (s : ArcInner) :
    releaseMany (k + 1) s =
      ((releaseMany k (arcRelease s).1).1,
       (arcRelease s).2 ++ (releaseMany k (arcRelease s).1).2) := by
  simp only [releaseMany]

theorem releaseMany_lt : ∀ (k n : Nat) (v : Inner), k < n →
    releaseMany k ⟨n, v⟩ = (⟨n - k, v⟩, []) := by
  intro k
  induction k with
  | zero => intro n v _; simp [releaseMany]
  | succ k ih =>
    intro n v hk
    have hrel : arcRelease ⟨n, v⟩ = (⟨n - 1, v⟩, []) := by
      simp only [arcRelease]
      rw [if_neg (by omega)]
    rw [releaseMany_succ_eq, hrel]
    dsimp only
    rw [ih (n - 1) v (by omega)]
    have h3 : n - 1 - k = n - (k + 1) := by omega
    simp [h3]

theorem releaseMany_all : ∀ (n : Nat) (v : Inner),
    releaseMany (n + 1) ⟨n + 1, v⟩ = (⟨0, v⟩, [DevCall.free v.handle]) := by
  intro n
  induction n with
  | zero =>
    intro v
    rw [releaseMany_succ_eq]
    simp [releaseMany, arcRelease, Inner.dropCalls, Device.free_memory]
  | succ n ih =>
    intro v
    have hrel : arcRelease ⟨n + 2, v⟩ = (⟨n + 1, v⟩, []) := by
      simp only [arcRelease]
      rw [if_neg (by omega)]
      have h3 : n + 2 - 1 = n + 1 := by omega
      rw [h3]
    rw [releaseMany_succ_eq, hrel]
    dsimp only
    rw [ih v]
    simp

/-- Claim C1: with N owners of a block's shared state, releasing any
k < N of them emits no Device free call, while releasing all N emits
exactly one free call, on the block's handle. -/
theorem c1_last_owner_frees_once (v : Inner) (N k : Nat) (hk : k < N) :
    (releaseMany k ⟨N, v⟩).2 = [] ∧
    (releaseMany N ⟨N, v⟩).2 = [DevCall.free v.handle] := by
  constructor
  · rw [releaseMany_lt k N v hk]
  · obtain ⟨n, rfl⟩ : ∃ n, N = n + 1 := ⟨N - 1, by omega⟩
    rw [releaseMany_all n v]

/-- Witness for C1 at N = 3, k = 2, on a concrete block state. -/
theorem c1_witness :
    2 < 3 ∧
    ((releaseMany 2 ⟨3, sampleInner⟩).2 = [] ∧
     (releaseMany 3 ⟨3, sampleInner⟩).2 = [DevCall.free sampleInner.handle]) :=
  ⟨by decide, c1_last_owner_frees_once sampleInner 3 2 (by decide)⟩

/-- Claim C2: `unmap` panics (aborts) exactly when the view's stored
origin handle differs from the block's own handle; when they agree it
performs one Device unmap call on the block's handle. -/
theorem c2_unmap_abort_iff (self : DeviceMemory) (m : MemoryMapping) :
    (self.unmap m = none ↔ m.mem_handle ≠ self.handle) ∧
    (m.mem_handle = self.handle →
      self.unmap m = some [DevCall.unmapMem self.handle]) := by
  constructor
  · simp [DeviceMemory.unmap, DeviceMemory.handle, DeviceMemory.unmap_ptr,
      Device.unmap_memory]
  · intro h
    simp [DeviceMemory.unmap, DeviceMemory.handle, DeviceMemory.unmap_ptr,
      Device.unmap_memory, h]

/-- Witness for C2 on a concrete block and a view carrying the matching
handle. -/
theorem c2_witness :
    (DeviceMemory.unmap sampleMem ⟨0, 4, ⟨7⟩⟩ = none ↔
      (MemoryMapping.mk 0 4 ⟨7⟩).mem_handle ≠ sampleMem.handle) ∧
    ((MemoryMapping.mk 0 4 ⟨7⟩).mem_handle = sampleMem.handle →
      DeviceMemory.unmap sampleMem ⟨0, 4, ⟨7⟩⟩ =
        some [DevCall.unmapMem sampleMem.handle]) :=
  c2_unmap_abort_iff sampleMem ⟨0, 4, ⟨7⟩⟩

/-- Claim C3: a successful `map` returns a view whose length is
`size_bytes` divided by the element size with floor division. -/
theorem c3_map_len (self : DeviceMemory) (sizeofT offset_bytes size_bytes flags : Nat)
    (m : MemoryMapping)
    (h : (self.map sizeofT offset_bytes size_bytes flags).1 = MapOutcome.ok m) :
    m.len = size_bytes / sizeofT := by
  simp only [DeviceMemory.map, DeviceMemory.map_to_ptr, Device.map_memory] at h
  cases hr : self.inner.device.mapResult self.inner.handle offset_bytes size_bytes with
  | error e => rw [hr] at h; simp at h
  | ok ptr =>
    rw [hr] at h
    simp only [rustDiv] at h
    by_cases hz : sizeofT = 0
    · rw [if_pos hz] at h; simp at h
    · rw [if_neg hz] at h
      simp only [MapOutcome.ok.injEq] at h
      rw [← h]
      rfl

/-- Witness for C3: mapping 7 bytes with a 4-byte element type yields a
view of length 1. -/
theorem c3_witness :
    (sampleMem.map 4 0 7 0).1 = MapOutcome.ok ⟨1000, 1, ⟨7⟩⟩ ∧
    (MemoryMapping.mk 1000 1 ⟨7⟩).len = 7 / 4 :=
  ⟨rfl, c3_map_len sampleMem 4 0 7 0 ⟨1000, 1, ⟨7⟩⟩ rfl⟩

/-- Claim C4: `build` makes exactly one Device allocate call carrying
the builder's size and type index, and its result is the device's
answer: an `AllocationError` surfaced unchanged, or a fresh block
recording the returned handle, the device, and the two parameters. -/
theorem c4_build_one_allocate (b : DeviceMemoryBuilder) (device : Device) :
    (b.build device).2 = [DevCall.allocate b.allocate_info.allocation_size
        b.allocate_info.memory_type_index] ∧
    (b.build device).1 =
      (device.allocResult b.allocate_info.allocation_size
          b.allocate_info.memory_type_index).map
        (fun raw => ⟨⟨⟨raw⟩, device, b.allocate_info.allocation_size,
            b.allocate_info.memory_type_index⟩⟩) := by
  cases hr : device.allocResult b.allocate_info.allocation_size
      b.allocate_info.memory_type_index with
  | error e =>
    simp [DeviceMemoryBuilder.build, Device.allocate_memory, hr, Except.map]
  | ok raw =>
    simp [DeviceMemoryBuilder.build, Device.allocate_memory, hr, Except.map]

/-- Claim C5: `map_to_ptr` and `map` fail exactly when the single
underlying Device map call fails, surfacing that same `MapError`; each
issues exactly one Device map call; and the outcome is independent of
the stored `allocation_size`, so no internal bound check occurs. -/
theorem c5_map_error_passthrough (self : DeviceMemory)
    (sizeofT offset_bytes size_bytes flags asz : Nat) (e : MapError) :
    ((self.map_to_ptr offset_bytes size_bytes flags).1 = Except.error e ↔
      self.inner.device.mapResult self.inner.handle offset_bytes size_bytes =
        Except.error e) ∧
    ((self.map sizeofT offset_bytes size_bytes flags).1 = MapOutcome.err e ↔
      self.inner.device.mapResult self.inner.handle offset_bytes size_bytes =
        Except.error e) ∧
    (self.map_to_ptr offset_bytes size_bytes flags).2 =
      [DevCall.mapMem self.inner.handle offset_bytes size_bytes flags] ∧
    DeviceMemory.map_to_ptr
        ⟨⟨self.inner.handle, self.inner.device, asz, self.inner.memory_type_index⟩⟩
        offset_bytes size_bytes flags =
      self.map_to_ptr offset_bytes size_bytes flags ∧
    DeviceMemory.map
        ⟨⟨self.inner.handle, self.inner.device, asz, self.inner.memory_type_index⟩⟩
        sizeofT offset_bytes size_bytes flags =
      self.map sizeofT offset_bytes size_bytes flags := by
  refine ⟨?_, ?_, ?_, ?_, ?_⟩
  · simp [DeviceMemory.map_to_ptr, Device.map_memory]
  · cases hr : self.inner.device.mapResult self.inner.handle offset_bytes size_bytes with
    | error e2 =>
      simp [DeviceMemory.map, DeviceMemory.map_to_ptr, Device.map_memory, hr]
    | ok ptr =>
      simp only [DeviceMemory.map, DeviceMemory.map_to_ptr, Device.map_memory, hr]
      cases hd : rustDiv size_bytes sizeofT <;> simp [hd]
  · simp [DeviceMemory.map_to_ptr, Device.map_memory]
  · rfl
  · rfl

/-- Claim C6: two `map_to_ptr` or `map` calls differing only in the
reserved flags argument produce the same result. -/
theorem c6_flags_have_no_effect (self : DeviceMemory)
    (sizeofT offset_bytes size_bytes : Nat) (f1 f2 : MemoryMapFlags) :
    (self.map_to_ptr offset_bytes size_bytes f1).1 =
      (self.map_to_ptr offset_bytes size_bytes f2).1 ∧
    (self.map sizeofT offset_bytes size_bytes f1).1 =
      (self.map sizeofT offset_bytes size_bytes f2).1 := by
  constructor
  · rfl
  · simp only [DeviceMemory.map, DeviceMemory.map_to_ptr, Device.map_memory]
    cases self.inner.device.mapResult self.inner.handle offset_bytes size_bytes with
    | error e => rfl
    | ok ptr => cases rustDiv size_bytes sizeofT <;> rfl

/-- Claim C7: the owning accessor `handle` and the borrowing Handle
capability implementation yield the same handle on every block. -/
theorem c7_handle_capability_agrees (d : DeviceMemory) :
    d.handle = handleOfRef d :=
  rfl

/-- Claim C8: a fresh builder holds allocation_size = 0 and
memory_type_index = 0, and building it issues a zero-size, zero-index
allocate request. -/
theorem c8_unconfigured_builder_zeroes (device : Device) :
    DeviceMemoryBuilder.new.allocate_info.allocation_size = 0 ∧
    DeviceMemoryBuilder.new.allocate_info.memory_type_index = 0 ∧
    (DeviceMemoryBuilder.new.build device).2 = [DevCall.allocate 0 0] :=
  ⟨rfl, rfl, (c4_build_one_allocate DeviceMemoryBuilder.new device).1⟩

/-- Claim C9: when the device map call succeeds, `map` with a
zero-sized element type reaches the division by zero (a panic), while
any positive element size avoids it. -/
theorem c9_zero_sized_type_panics (self : DeviceMemory)
    (offset_bytes size_bytes flags ptr sizeofT : Nat)
    (hmap : self.inner.device.mapResult self.inner.handle offset_bytes size_bytes =
      Except.ok ptr)
    (hpos : 0 < sizeofT) :
    (self.map 0 offset_bytes size_bytes flags).1 = MapOutcome.panic ∧
    (self.map sizeofT offset_bytes size_bytes flags).1 ≠ MapOutcome.panic := by
  constructor
  · simp [DeviceMemory.map, DeviceMemory.map_to_ptr, Device.map_memory, hmap, rustDiv]
  · simp only [DeviceMemory.map, DeviceMemory.map_to_ptr, Device.map_memory, hmap]
    simp [rustDiv, Nat.pos_iff_ne_zero.mp hpos]

/-- Witness for C9 on a concrete block whose device map succeeds:
element size 0 panics, element size 4 does not. -/
theorem c9_witness :
    sampleMem.inner.device.mapResult sampleMem.inner.handle 0 8 = Except.ok 1000 ∧
    0 < 4 ∧
    ((sampleMem.map 0 0 8 0).1 = MapOutcome.panic ∧
     (sampleMem.map 4 0 8 0).1 ≠ MapOutcome.panic) :=
  ⟨rfl, by decide, c9_zero_sized_type_panics sampleMem 0 8 0 1000 4 rfl (by decide)⟩

/-- Claim C10: every public operation on a live block — map, map_to_ptr,
unmap, unmap_ptr, handle, device, and cloning — leaves the shared
state's handle, device, allocation_size and memory_type_index fields
unchanged. -/
theorem c10_fields_immutable (s : ArcInner) (op : BlockOp) :
    (step s op).1.value.handle = s.value.handle ∧
    (step s op).1.value.device = s.value.device ∧
    (step s op).1.value.allocation_size = s.value.allocation_size ∧
    (step s op).1.value.memory_type_index = s.value.memory_type_index := by
  cases op <;> exact ⟨rfl, rfl, rfl, rfl⟩

end Voodoo
